import Mathlib

/-!
Shallow embedding of the `gas` (goautosocket) package: the `TCPClient`
auto-reconnecting TCP wrapper from `tcp_client.go` and the `ErrMaxRetries`
sentinel from the package's error file.

Durations are modelled as `Int` nanoseconds (Go's `time.Duration` is an
`int64` nanosecond count); Go `int` values are modelled as `Int`.
Underlying transport I/O and dialing are nondeterministic from the
wrapper's point of view, so a read/write call is modelled as a function of
two oracles: `trace i` gives the result of the i-th underlying
`TCPConn.Read`/`Write` attempt, and `dials j` gives the result of the j-th
`net.DialTCP` performed by the j-th `reconnect` invocation.
-/

set_option autoImplicit false

namespace Gas

/-- One nanosecond-scale unit: Go's `time.Millisecond` (10^6 ns). -/
def millisecond : Int := 1000000

/-- The platform errno values the code compares against (`syscall.EPIPE`,
`syscall.ECONNRESET`), plus any other raw errno. -/
inductive Errno where
  | epipe
  | econnreset
  | otherE (code : Nat)
  deriving DecidableEq

/-- The value nested inside a `*net.OpError` (`e.Err`): either a raw
`syscall.Errno`, or some other error value (e.g. an `*os.SyscallError`
wrapper or a timeout), identified by a tag. The code's type assertion
`e.Err.(syscall.Errno)` succeeds only on the `errnoVal` form. -/
inductive Nested where
  | errnoVal (e : Errno)
  | nonErrno (tag : String)
  deriving DecidableEq

/-- A Go `error` value as the retry loops observe it: either a
`*net.OpError` carrying a nested cause, or any other error, observed only
through its `Error()` string (the code tests `err.Error() == "EOF"`). -/
inductive GoError where
  | opError (nested : Nested)
  | basic (msg : String)
  deriving DecidableEq

/-- Result of one underlying `TCPConn.Read`/`TCPConn.Write` call:
the byte count together with an optional error. -/
def IOResult : Type := Int × Option GoError

instance : DecidableEq IOResult := by
  unfold IOResult
  infer_instance

/-- Result of one `net.DialTCP` inside `reconnect`: a fresh connection
(identified by a number) or a dial error. -/
inductive DialResult where
  | dialOk (conn : Nat)
  | dialErr (e : GoError)
  deriving DecidableEq

/-- The `TCPClient` struct: the embedded `*net.TCPConn` (modelled by the
identifier of the active connection plus the list of connections closed so
far), and the `maxRetries` / `retryInterval` fields. The `sync.RWMutex`
has no data content; lock events are modelled separately where a claim
needs them. -/
structure TCPClient where
  tcpConn : Nat
  closedConns : List Nat
  maxRetries : Int
  retryInterval : Int
  deriving DecidableEq

/-- `DialTCP` (successful case): the initialization performed at the end
of `DialTCP`, with the defaults `maxRetries = 5` and
`retryInterval = 100 * time.Millisecond`. -/
def DialTCP (conn : Nat) : TCPClient :=
  { tcpConn := conn
    closedConns := []
    maxRetries := 5
    retryInterval := 100 * millisecond }

/-- `reconnect`: dial a new connection to the remote address; on dial
failure return the error and leave the client untouched; on success close
the old connection and install the new one. -/
def TCPClient.reconnect (c : TCPClient) (d : DialResult) :
    TCPClient × Option GoError :=
  match d with
  | .dialErr e => (c, some e)
  | .dialOk conn =>
      ({ c with
          tcpConn := conn
          closedConns := c.tcpConn :: c.closedConns }, none)

/-- Events emitted by `reconnect`, in program order: it takes the
exclusive lock first (`c.lock.Lock()` with a deferred `Unlock()`), then
dials; on success it closes the old connection and installs the new one
before the deferred unlock runs. -/
inductive RcEvent where
  | lockEx
  | unlockEx
  | dialEv
  | closeOld
  | installNew
  deriving DecidableEq

/-- The straight-line event order of `reconnect`'s body. -/
def reconnectEvents (d : DialResult) : List RcEvent :=
  [RcEvent.lockEx, RcEvent.dialEv] ++
    (match d with
      | .dialErr _ => []
      | .dialOk _ => [RcEvent.closeOld, RcEvent.installNew]) ++
    [RcEvent.unlockEx]

/-- The classification a loop iteration applies to one `IOResult`,
mirroring the `switch e := err.(type)` blocks. -/
inductive StepClass where
  | success (n : Int)
  | transientStep
  | fatalRet (n : Int) (e : GoError)
  | retryNoReconnect
  | panicStep
  deriving DecidableEq

/-- The error analysis of one iteration of `Read`'s loop:
`err == nil` returns `n`; a `*net.OpError` first asserts
`e.Err.(syscall.Errno)` (panicking if the nested cause is not a raw
errno) and reconnects on `EPIPE`/`ECONNRESET`, otherwise falling through
to the next iteration with no reconnect and no return; any other error is
retried via reconnect when `err.Error() == "EOF"` and returned unchanged
otherwise. -/
def readClassify (r : IOResult) : StepClass :=
  match r with
  | (n, none) => .success n
  | (_, some (.opError (.errnoVal e))) =>
      if e = Errno.epipe ∨ e = Errno.econnreset then .transientStep
      else .retryNoReconnect
  | (_, some (.opError (.nonErrno _))) => .panicStep
  | (n, some (.basic msg)) =>
      if msg = "EOF" then .transientStep
      else .fatalRet n (.basic msg)

/-- The error analysis of one iteration of `Write`'s loop: as for read,
except that a `*net.OpError` whose errno is neither `EPIPE` nor
`ECONNRESET` is returned unchanged (`else { return n, err }`), and every
non-`OpError` error is returned unchanged (the `default` case). -/
def writeClassify (r : IOResult) : StepClass :=
  match r with
  | (n, none) => .success n
  | (n, some (.opError (.errnoVal e))) =>
      if e = Errno.epipe ∨ e = Errno.econnreset then .transientStep
      else .fatalRet n (.opError (.errnoVal e))
  | (_, some (.opError (.nonErrno _))) => .panicStep
  | (n, some (.basic msg)) => .fatalRet n (.basic msg)

/-- An error returned by `Read`/`Write`: an underlying Go error passed
through, or the package sentinel. -/
inductive RetErr where
  | fromGo (e : GoError)
  | ErrMaxRetries
  deriving DecidableEq

/-- What a `Read`/`Write` call does in the end: return a pair
`(n, err)`, or panic in the errno type assertion. -/
inductive CallResult where
  | ret (n : Int) (e : Option RetErr)
  | panicked
  deriving DecidableEq

/-- Observables of one loop iteration: the backoff value `t` held at the
start of the iteration, whether the iteration took the transient
(reconnect) path, whether that reconnect's dial failed, and the sleep
performed (`time.Sleep(t)` runs exactly when `c.reconnect() != nil`). -/
structure IterLog where
  backoff : Int
  transientStep : Bool
  dialFailed : Bool
  slept : Option Int
  deriving DecidableEq

/-- Full outcome of a `Read`/`Write` call: result, final client state,
per-iteration log, number of underlying I/O attempts, number of
`reconnect` invocations. -/
structure LoopOut where
  result : CallResult
  state : TCPClient
  iters : List IterLog
  attempts : Nat
  reconnects : Nat
  deriving DecidableEq

/-- The sleeps a call performed, in order. -/
def LoopOut.sleeps (o : LoopOut) : List Int :=
  o.iters.filterMap (fun l => l.slept)

/-- The common retry loop of `Read` and `Write`
(`for i := 0; i < maxTries; i++ { ... t *= 2 }`), parametrised by the
per-iteration error analysis. `fuel` is the number of loop iterations
still allowed, `t` the current backoff, `aIdx`/`rIdx` the indices of the
next I/O attempt and the next reconnect in the oracles. Falling out of
the loop returns `(-1, ErrMaxRetries)`. -/
def runLoop (classify : IOResult → StepClass) (trace : Nat → IOResult)
    (dials : Nat → DialResult) :
    Nat → TCPClient → Int → Nat → Nat → LoopOut
  | 0, c, _, aIdx, rIdx =>
      { result := .ret (-1) (some .ErrMaxRetries)
        state := c
        iters := []
        attempts := aIdx
        reconnects := rIdx }
  | fuel + 1, c, t, aIdx, rIdx =>
      match classify (trace aIdx) with
      | .success n =>
          { result := .ret n none
            state := c
            iters := [{ backoff := t, transientStep := false,
                        dialFailed := false, slept := none }]
            attempts := aIdx + 1
            reconnects := rIdx }
      | .fatalRet n e =>
          { result := .ret n (some (.fromGo e))
            state := c
            iters := [{ backoff := t, transientStep := false,
                        dialFailed := false, slept := none }]
            attempts := aIdx + 1
            reconnects := rIdx }
      | .panicStep =>
          { result := .panicked
            state := c
            iters := [{ backoff := t, transientStep := false,
                        dialFailed := false, slept := none }]
            attempts := aIdx + 1
            reconnects := rIdx }
      | .retryNoReconnect =>
          let rest := runLoop classify trace dials fuel c (t * 2)
            (aIdx + 1) rIdx
          { rest with
              iters := { backoff := t, transientStep := false,
                         dialFailed := false, slept := none } :: rest.iters }
      | .transientStep =>
          let rc := c.reconnect (dials rIdx)
          match rc.2 with
          | some _ =>
              let rest := runLoop classify trace dials fuel rc.1 (t * 2)
                (aIdx + 1) (rIdx + 1)
              { rest with
                  iters := { backoff := t, transientStep := true,
                             dialFailed := true, slept := some t } :: rest.iters }
          | none =>
              let rest := runLoop classify trace dials fuel rc.1 (t * 2)
                (aIdx + 1) (rIdx + 1)
              { rest with
                  iters := { backoff := t, transientStep := true,
                             dialFailed := false, slept := none } :: rest.iters }

/-- `Read`: the retry loop with the hard-coded locals
`maxTries := 5` and `t := time.Millisecond * 100` that the function body
declares (the `c.maxRetries` / `c.retryInterval` fields are not read). -/
def TCPClient.Read (c : TCPClient) (trace : Nat → IOResult)
    (dials : Nat → DialResult) : LoopOut :=
  runLoop readClassify trace dials 5 c (millisecond * 100) 0 0

/-- `Write`: the retry loop with the hard-coded locals
`maxTries := 5` and `t := time.Millisecond * 100` that the function body
declares (the `c.maxRetries` / `c.retryInterval` fields are not read). -/
def TCPClient.Write (c : TCPClient) (trace : Nat → IOResult)
    (dials : Nat → DialResult) : LoopOut :=
  runLoop writeClassify trace dials 5 c (millisecond * 100) 0 0

/-- Concrete oracle: every underlying I/O attempt fails with an error
whose `Error()` string is `"EOF"`. -/
def eofTrace : Nat → IOResult := fun _ => ((0 : Int), some (.basic "EOF"))

/-- Concrete oracle: every dial inside `reconnect` fails. -/
def failDials : Nat → DialResult :=
  fun _ => .dialErr (.basic "connection refused")

/-- Every entry of the iteration log of `runLoop` started with backoff `t`
has backoff `t * 2^k` at position `k` (the backoff doubles at the end of
every iteration that does not return), and records a sleep of exactly that
backoff precisely when the iteration took the reconnect path and the
reconnect's dial failed. -/
theorem runLoop_log (classify : IOResult → StepClass) (trace : Nat → IOResult)
    (dials : Nat → DialResult) :
    ∀ (fuel : Nat) (c : TCPClient) (t : Int) (aIdx rIdx k : Nat) (e : IterLog),
      (runLoop classify trace dials fuel c t aIdx rIdx).iters.get? k = some e →
      e.backoff = t * 2 ^ k ∧
        e.slept = cond (e.transientStep && e.dialFailed) (some e.backoff) none := by
  intro fuel
  induction fuel with
  | zero =>
      intro c t aIdx rIdx k e h
      simp [runLoop] at h
  | succ fuel ih =>
      intro c t aIdx rIdx k e h
      simp only [runLoop] at h
      split at h
      · cases k with
        | zero =>
            simp only [List.get?_cons_zero, Option.some.injEq] at h
            subst h
            simp
        | succ k => simp at h
      · cases k with
        | zero =>
            simp only [List.get?_cons_zero, Option.some.injEq] at h
            subst h
            simp
        | succ k => simp at h
      · cases k with
        | zero =>
            simp only [List.get?_cons_zero, Option.some.injEq] at h
            subst h
            simp
        | succ k => simp at h
      · cases k with
        | zero =>
            simp only [List.get?_cons_zero, Option.some.injEq] at h
            subst h
            simp
        | succ k =>
            simp only [List.get?_cons_succ] at h
            have := ih c (t * 2) (aIdx + 1) rIdx k e h
            refine ⟨?_, this.2⟩
            rw [this.1, pow_succ]
            ring
      · split at h
        · cases k with
          | zero =>
              simp only [List.get?_cons_zero, Option.some.injEq] at h
              subst h
              simp
          | succ k =>
              simp only [List.get?_cons_succ] at h
              have := ih _ (t * 2) (aIdx + 1) (rIdx + 1) k e h
              refine ⟨?_, this.2⟩
              rw [this.1, pow_succ]
              ring
        · cases k with
          | zero =>
              simp only [List.get?_cons_zero, Option.some.injEq] at h
              subst h
              simp
          | succ k =>
              simp only [List.get?_cons_succ] at h
              have := ih _ (t * 2) (aIdx + 1) (rIdx + 1) k e h
              refine ⟨?_, this.2⟩
              rw [this.1, pow_succ]
              ring

/-- If every iteration the loop can perform classifies as a
continue-without-return step (reconnect path, or read's silent retry of a
non-transient `*net.OpError`), the loop falls out and returns
`(-1, ErrMaxRetries)`. -/
theorem runLoop_exhaust (classify : IOResult → StepClass)
    (trace : Nat → IOResult) (dials : Nat → DialResult) :
    ∀ (fuel : Nat) (c : TCPClient) (t : Int) (aIdx rIdx : Nat),
      (∀ i, aIdx ≤ i → i < aIdx + fuel →
        classify (trace i) = .transientStep ∨
          classify (trace i) = .retryNoReconnect) →
      (runLoop classify trace dials fuel c t aIdx rIdx).result =
        .ret (-1) (some .ErrMaxRetries) := by
  intro fuel
  induction fuel with
  | zero =>
      intro c t aIdx rIdx _
      simp [runLoop]
  | succ fuel ih =>
      intro c t aIdx rIdx h
      have h0 := h aIdx (le_refl _) (by omega)
      simp only [runLoop]
      split
      · rename_i n heq
        rcases h0 with h0 | h0 <;> rw [heq] at h0 <;> cases h0
      · rename_i n e heq
        rcases h0 with h0 | h0 <;> rw [heq] at h0 <;> cases h0
      · rename_i heq
        rcases h0 with h0 | h0 <;> rw [heq] at h0 <;> cases h0
      · exact ih c (t * 2) (aIdx + 1) rIdx
          (fun i hle hlt => h i (by omega) (by omega))
      · split
        · exact ih _ (t * 2) (aIdx + 1) (rIdx + 1)
            (fun i hle hlt => h i (by omega) (by omega))
        · exact ih _ (t * 2) (aIdx + 1) (rIdx + 1)
            (fun i hle hlt => h i (by omega) (by omega))

/-- Concrete oracle: every underlying I/O attempt fails with a
`*net.OpError` carrying the raw errno `EPIPE`. -/
def epipeTrace : Nat → IOResult :=
  fun _ => ((0 : Int), some (.opError (.errnoVal .epipe)))

/-- A client whose retry configuration was changed away from the
defaults, as `SetMaxRetries(10)` / `SetRetryInterval(10ms)` intend. -/
def cfgClient : TCPClient :=
  { tcpConn := 0
    closedConns := []
    maxRetries := 10
    retryInterval := 10 * millisecond }

/-- **C1.** The claim says the retry loops use the handle's configured
`maxRetries` / `retryInterval` fields. They do not: with `maxRetries = 10`
and `retryInterval = 10 ms` stored on the handle, `Read` (on a trace of
EOF failures with failing reconnects) and `Write` (on broken-pipe
failures) still perform exactly the hard-coded 5 attempts, and the first
backoff sleep is the hard-coded 100 ms, not the configured interval. -/
theorem retry_config_ignored :
    cfgClient.maxRetries = 10 ∧
    cfgClient.retryInterval = 10 * millisecond ∧
    (cfgClient.Read eofTrace failDials).result =
      .ret (-1) (some .ErrMaxRetries) ∧
    (cfgClient.Read eofTrace failDials).attempts = 5 ∧
    (cfgClient.Read eofTrace failDials).sleeps.head? =
      some (100 * millisecond) ∧
    (cfgClient.Write epipeTrace failDials).result =
      .ret (-1) (some .ErrMaxRetries) ∧
    (cfgClient.Write epipeTrace failDials).attempts = 5 ∧
    (cfgClient.Write epipeTrace failDials).sleeps.head? =
      some (100 * millisecond) ∧
    ¬ (cfgClient.Read eofTrace failDials).sleeps.head? =
        some cfgClient.retryInterval := by
  decide

/-- Concrete oracle: the first read attempt fails with a `*net.OpError`
carrying the errno `ETIMEDOUT` (code 110) — a fatal error per the spec —
and the second attempt succeeds with 7 bytes. -/
def fatalOpTrace : Nat → IOResult := fun i =>
  if i = 0 then ((3 : Int), some (.opError (.errnoVal (.otherE 110))))
  else ((7 : Int), none)

/-- **C2 counterexample.** The claim says a fatal error is returned
immediately on its first occurrence for every read call. It is not:
`Read` on a first-attempt `*net.OpError` with a non-transient errno does
not return it — it silently retries (with no reconnect) and returns the
second attempt's success, so the caller never sees the fatal error. -/
theorem read_fatal_operror_retried_counterexample :
    ((DialTCP 0).Read fatalOpTrace failDials).result = .ret 7 none ∧
    ((DialTCP 0).Read fatalOpTrace failDials).attempts = 2 ∧
    ((DialTCP 0).Read fatalOpTrace failDials).reconnects = 0 ∧
    ¬ ((DialTCP 0).Read fatalOpTrace failDials).result =
        .ret 3 (some (.fromGo (.opError (.errnoVal (.otherE 110))))) := by
  decide

/-- **C2 (amended).** A fatal error is returned immediately, unchanged,
with no retry and no reconnect, in these cases: for read, any
non-`OpError` error whose message is not `"EOF"`; for write, any
`*net.OpError` with an errno other than `EPIPE`/`ECONNRESET`, and (last
two conjuncts) any non-`OpError` error whatever its message. A read that
hits an `*net.OpError` with a non-transient errno, however, classifies as
a silent retry without reconnect instead of returning. (An `OpError`
whose nested cause is not a raw errno panics instead — see the
errno-assertion theorem.) -/
theorem fatal_error_immediate_return (c d : TCPClient)
    (tr tw : Nat → IOResult) (dr dw : Nat → DialResult) (n m : Int)
    (msg : String) (k : Nat)
    (hmsg : msg ≠ "EOF")
    (hr : tr 0 = (n, some (.basic msg)))
    (hw : tw 0 = (m, some (.opError (.errnoVal (.otherE k))))) :
    ((c.Read tr dr).result = .ret n (some (.fromGo (.basic msg))) ∧
     (c.Read tr dr).attempts = 1 ∧
     (c.Read tr dr).reconnects = 0 ∧
     (c.Read tr dr).sleeps = []) ∧
    ((d.Write tw dw).result =
        .ret m (some (.fromGo (.opError (.errnoVal (.otherE k))))) ∧
     (d.Write tw dw).attempts = 1 ∧
     (d.Write tw dw).reconnects = 0 ∧
     (d.Write tw dw).sleeps = []) ∧
    (∀ (p : Int) (s : String),
      writeClassify (p, some (.basic s)) = .fatalRet p (.basic s)) ∧
    (∀ (p : Int) (q : Nat),
      readClassify (p, some (.opError (.errnoVal (.otherE q)))) =
        .retryNoReconnect) := by
  refine ⟨?_, ?_, ?_, ?_⟩
  · simp [TCPClient.Read, runLoop, hr, readClassify, hmsg, LoopOut.sleeps]
  · simp [TCPClient.Write, runLoop, hw, writeClassify, LoopOut.sleeps]
  · intro p s; rfl
  · intro p q; simp [readClassify]

/-- Concrete oracle: every attempt fails with a non-`OpError` error whose
message is `"broken"` (a fatal error for read). -/
def fatalBasicTrace : Nat → IOResult :=
  fun _ => ((2 : Int), some (.basic "broken"))

/-- Concrete oracle: every attempt fails with a `*net.OpError` carrying
the errno `ETIMEDOUT` (code 110) — fatal for write. -/
def fatalOpWTrace : Nat → IOResult :=
  fun _ => ((4 : Int), some (.opError (.errnoVal (.otherE 110))))

/-- Witness for the amended C2 theorem at a concrete input. -/
theorem fatal_error_immediate_return_witness :
    (((DialTCP 0).Read fatalBasicTrace failDials).result =
        .ret 2 (some (.fromGo (.basic "broken"))) ∧
     ((DialTCP 0).Read fatalBasicTrace failDials).attempts = 1 ∧
     ((DialTCP 0).Read fatalBasicTrace failDials).reconnects = 0 ∧
     ((DialTCP 0).Read fatalBasicTrace failDials).sleeps = []) ∧
    (((DialTCP 0).Write fatalOpWTrace failDials).result =
        .ret 4 (some (.fromGo (.opError (.errnoVal (.otherE 110))))) ∧
     ((DialTCP 0).Write fatalOpWTrace failDials).attempts = 1 ∧
     ((DialTCP 0).Write fatalOpWTrace failDials).reconnects = 0 ∧
     ((DialTCP 0).Write fatalOpWTrace failDials).sleeps = []) :=
  ⟨(fatal_error_immediate_return (DialTCP 0) (DialTCP 0) fatalBasicTrace
      fatalOpWTrace failDials failDials 2 4 "broken" 110 (by decide)
      rfl rfl).1,
   (fatal_error_immediate_return (DialTCP 0) (DialTCP 0) fatalBasicTrace
      fatalOpWTrace failDials failDials 2 4 "broken" 110 (by decide)
      rfl rfl).2.1⟩

/-- **C4.** If every attempt of a read call classifies as a
continue-without-return step (the reconnect path, or read's silent retry
of a non-transient `OpError`), and every attempt of a write call
classifies as the reconnect path, the calls exhaust the 5-iteration
budget and return the `ErrMaxRetries` sentinel with byte count `-1`
(no bytes transferred). -/
theorem budget_exhaustion_returns_sentinel (c d : TCPClient)
    (tr tw : Nat → IOResult) (dr dw : Nat → DialResult)
    (hr : ∀ i, i < 5 → readClassify (tr i) = .transientStep ∨
      readClassify (tr i) = .retryNoReconnect)
    (hw : ∀ i, i < 5 → writeClassify (tw i) = .transientStep) :
    (c.Read tr dr).result = .ret (-1) (some .ErrMaxRetries) ∧
    (d.Write tw dw).result = .ret (-1) (some .ErrMaxRetries) := by
  constructor
  · exact runLoop_exhaust readClassify tr dr 5 c _ 0 0
      (fun i h1 h2 => hr i (by omega))
  · exact runLoop_exhaust writeClassify tw dw 5 d _ 0 0
      (fun i h1 h2 => Or.inl (hw i (by omega)))

/-- Witness for the budget-exhaustion theorem at a concrete input. -/
theorem budget_exhaustion_returns_sentinel_witness :
    ((DialTCP 0).Read eofTrace failDials).result =
      .ret (-1) (some .ErrMaxRetries) ∧
    ((DialTCP 0).Write epipeTrace failDials).result =
      .ret (-1) (some .ErrMaxRetries) :=
  budget_exhaustion_returns_sentinel (DialTCP 0) (DialTCP 0) eofTrace
    epipeTrace failDials failDials (fun _ _ => Or.inl rfl) (fun _ _ => rfl)

/-- **C5.** What the backoff actually does: every iteration log entry of a
read or write call has backoff `100 ms · 2^k` at position `k` — the
backoff starts at the hard-coded 100 ms (not the configured
`retryInterval`; that is the configuration bug of C1) and doubles after
every iteration that does not return — and an iteration sleeps, for
exactly its backoff value, precisely when it took the reconnect path and
the reconnect's dial failed. The backoff is a local of each call, so
every call restarts it at 100 ms. -/
theorem backoff_schedule (c d : TCPClient) (tr tw : Nat → IOResult)
    (dr dw : Nat → DialResult) (k j : Nat) (e f : IterLog)
    (hr : (c.Read tr dr).iters.get? k = some e)
    (hw : (d.Write tw dw).iters.get? j = some f) :
    (e.backoff = millisecond * 100 * 2 ^ k ∧
     e.slept = cond (e.transientStep && e.dialFailed) (some e.backoff) none) ∧
    (f.backoff = millisecond * 100 * 2 ^ j ∧
     f.slept = cond (f.transientStep && f.dialFailed) (some f.backoff) none) :=
  ⟨runLoop_log readClassify tr dr 5 c _ 0 0 k e hr,
   runLoop_log writeClassify tw dw 5 d _ 0 0 j f hw⟩

/-- Witness for the backoff-schedule theorem at a concrete input: the
second iteration of an all-EOF read with failing reconnects. -/
theorem backoff_schedule_witness :
    ({ backoff := 200000000, transientStep := true, dialFailed := true,
       slept := some 200000000 : IterLog }.backoff =
        millisecond * 100 * 2 ^ 1 ∧
     { backoff := 200000000, transientStep := true, dialFailed := true,
       slept := some 200000000 : IterLog }.slept =
        cond (true && true) (some (200000000 : Int)) none) :=
  (backoff_schedule (DialTCP 0) (DialTCP 0) eofTrace epipeTrace failDials
    failDials 1 1
    { backoff := 200000000, transientStep := true, dialFailed := true,
      slept := some 200000000 }
    { backoff := 200000000, transientStep := true, dialFailed := true,
      slept := some 200000000 }
    (by decide) (by decide)).1

/-- **C6.** On dial failure `reconnect` leaves the client completely
unchanged (the broken connection stays installed) and returns the dial
error; on dial success it installs the new connection and moves the old
one to the closed list. -/
theorem reconnect_dial_failure_leaves_connection (c : TCPClient)
    (e : GoError) (conn : Nat) :
    c.reconnect (.dialErr e) = (c, some e) ∧
    c.reconnect (.dialOk conn) =
      ({ c with
          tcpConn := conn
          closedConns := c.tcpConn :: c.closedConns }, none) :=
  ⟨rfl, rfl⟩

/-- **C7.** If the first underlying transport operation returns without
error (any byte count, including a partial transfer), read and write
return that count with no error after exactly one attempt, with no
reconnect, no sleep, and the client state untouched. -/
theorem io_success_returns_immediately (c d : TCPClient)
    (tr tw : Nat → IOResult) (dr dw : Nat → DialResult) (n m : Int)
    (hr : tr 0 = (n, none)) (hw : tw 0 = (m, none)) :
    ((c.Read tr dr).result = .ret n none ∧
     (c.Read tr dr).attempts = 1 ∧
     (c.Read tr dr).reconnects = 0 ∧
     (c.Read tr dr).sleeps = [] ∧
     (c.Read tr dr).state = c) ∧
    ((d.Write tw dw).result = .ret m none ∧
     (d.Write tw dw).attempts = 1 ∧
     (d.Write tw dw).reconnects = 0 ∧
     (d.Write tw dw).sleeps = [] ∧
     (d.Write tw dw).state = d) := by
  constructor
  · simp [TCPClient.Read, runLoop, hr, readClassify, LoopOut.sleeps]
  · simp [TCPClient.Write, runLoop, hw, writeClassify, LoopOut.sleeps]

/-- Concrete oracle: the underlying operation always succeeds with a
13-byte transfer. -/
def okTrace : Nat → IOResult := fun _ => ((13 : Int), none)

/-- Witness for the immediate-success theorem at a concrete input. -/
theorem io_success_returns_immediately_witness :
    (((DialTCP 0).Read okTrace failDials).result = .ret 13 none ∧
     ((DialTCP 0).Read okTrace failDials).attempts = 1 ∧
     ((DialTCP 0).Read okTrace failDials).reconnects = 0 ∧
     ((DialTCP 0).Read okTrace failDials).sleeps = [] ∧
     ((DialTCP 0).Read okTrace failDials).state = DialTCP 0) ∧
    (((DialTCP 0).Write okTrace failDials).result = .ret 13 none ∧
     ((DialTCP 0).Write okTrace failDials).attempts = 1 ∧
     ((DialTCP 0).Write okTrace failDials).reconnects = 0 ∧
     ((DialTCP 0).Write okTrace failDials).sleeps = [] ∧
     ((DialTCP 0).Write okTrace failDials).state = DialTCP 0) :=
  io_success_returns_immediately (DialTCP 0) (DialTCP 0) okTrace okTrace
    failDials failDials 13 13 rfl rfl

/-- **C8.** `reconnect` never touches the retry configuration: whether the
dial succeeds or fails, the `maxRetries` and `retryInterval` fields are
the same after the call as before it. -/
theorem reconnect_preserves_retry_config (c : TCPClient) (d : DialResult) :
    ((c.reconnect d).1).maxRetries = c.maxRetries ∧
    ((c.reconnect d).1).retryInterval = c.retryInterval := by
  cases d <;> exact ⟨rfl, rfl⟩

/-- **C9 counterexample.** The claim says the new connection is dialed
before the exclusive lock is acquired. In the code's event order the
exclusive lock acquisition is the first event and the dial comes after
it, so the dial does not precede the lock. -/
theorem reconnect_dials_inside_lock_counterexample :
    reconnectEvents (.dialOk 1) =
      [.lockEx, .dialEv, .closeOld, .installNew, .unlockEx] ∧
    ¬ List.indexOf RcEvent.dialEv (reconnectEvents (.dialOk 1)) <
        List.indexOf RcEvent.lockEx (reconnectEvents (.dialOk 1)) := by
  decide

/-- **C9 (amended).** In every `reconnect`, the exclusive lock is
acquired first, before the dial, and is held for the whole operation —
the deferred unlock is the last event — so the dial happens inside the
exclusive critical section. -/
theorem reconnect_locks_before_dial (d : DialResult) :
    (reconnectEvents d).head? = some RcEvent.lockEx ∧
    (reconnectEvents d).getLast? = some RcEvent.unlockEx ∧
    List.indexOf RcEvent.lockEx (reconnectEvents d) <
      List.indexOf RcEvent.dialEv (reconnectEvents d) := by
  have hErr : ∀ e : GoError, reconnectEvents (.dialErr e) =
      [RcEvent.lockEx, RcEvent.dialEv, RcEvent.unlockEx] := fun _ => rfl
  have hOk : ∀ conn : Nat, reconnectEvents (.dialOk conn) =
      [RcEvent.lockEx, RcEvent.dialEv, RcEvent.closeOld,
       RcEvent.installNew, RcEvent.unlockEx] := fun _ => rfl
  cases d with
  | dialOk conn => rw [hOk]; exact ⟨rfl, by decide, by decide⟩
  | dialErr e => rw [hErr]; exact ⟨rfl, by decide, by decide⟩

/-- Concrete oracle: every attempt fails with a `*net.OpError` whose
nested cause is not a raw errno (e.g. an `*os.SyscallError` wrapper). -/
def nonErrnoTrace : Nat → IOResult :=
  fun _ => ((0 : Int), some (.opError (.nonErrno "os.SyscallError")))

/-- **C10.** A `*net.OpError` whose nested cause is not a raw
`syscall.Errno` makes the classification step of both read and write hit
the unchecked type assertion `e.Err.(syscall.Errno)`: the call panics on
the first such attempt instead of returning any error. -/
theorem errno_assertion_panics :
    readClassify ((0 : Int), some (.opError (.nonErrno "os.SyscallError")))
      = .panicStep ∧
    writeClassify ((0 : Int), some (.opError (.nonErrno "os.SyscallError")))
      = .panicStep ∧
    ((DialTCP 0).Read nonErrnoTrace failDials).result = .panicked ∧
    ((DialTCP 0).Write nonErrnoTrace failDials).result = .panicked ∧
    ((DialTCP 0).Read nonErrnoTrace failDials).attempts = 1 := by
  decide

end Gas
